import Mathlib

/-!
Shallow embedding of the trs-database repository (two source files:
database.py, the storage gateway, and eventbrite.py, the ingestion driver)
and proofs about the claims of its specification.

Python dictionaries are modelled as insertion-ordered association lists
over string keys; Python values are modelled by the inductive `PyVal`.
Opaque conversions whose numeric result no claim depends on
(float parsing, arrow timestamp parsing) are modelled as tagged
constructors applied to their argument.
-/

set_option autoImplicit false

/-- A Python value as it flows through this program: None, booleans,
integers, strings, datetime instants (modelled as natural-number ticks of
a wall clock), the result of a float(x) conversion, the result of an
arrow.get(x).datetime conversion, and nested dictionaries. -/
inductive PyVal where
  | vNull
  | vBool (b : Bool)
  | vInt (n : Int)
  | vStr (s : String)
  | vTime (t : Nat)
  | vFloatOf (arg : PyVal)
  | vUtcInstant (arg : PyVal)
  | vDict (fields : List (String × PyVal))
deriving Repr

/-- A Python dict with string keys: an insertion-ordered association list. -/
abbrev Record := List (String × PyVal)

/-- Python exceptions raised by the embedded code. -/
inductive PyError where
  | keyError (key : String)
  | typeError (msg : String)
  | nameError (name : String)
deriving Repr, DecidableEq

/-- Dictionary lookup d[k]: the value of the first entry whose key is k. -/
def dictGet {α : Type} (d : List (String × α)) (k : String) : Option α :=
  match d with
  | [] => none
  | (k1, v) :: rest => if k1 == k then some v else dictGet rest k

/-- Dictionary assignment d[k] = v: replaces the first entry with key k in
place, or appends a new entry at the end, as Python dicts do. -/
def dictSet {α : Type} (d : List (String × α)) (k : String) (v : α) :
    List (String × α) :=
  match d with
  | [] => [(k, v)]
  | (k1, v1) :: rest =>
      if k1 == k then (k, v) :: rest else (k1, v1) :: dictSet rest k v

/-- Dictionary deletion del d[k]: removes the first entry with key k. -/
def dictDel {α : Type} (d : List (String × α)) (k : String) :
    List (String × α) :=
  match d with
  | [] => []
  | (k1, v1) :: rest =>
      if k1 == k then rest else (k1, v1) :: dictDel rest k

/-- The single-quote character, written via its code point so that the SQL
strings below can embed literal quotes. -/
def sqlQuote : String := String.singleton (Char.ofNat 39)

/-! ## database.py : the storage gateway -/

/-- database.py line 10: the fixed list of materialized views refreshed by
Database.refresh_views. -/
def MATERIALIZED_VIEWS : List String :=
  ["event_aggregates", "members_view", "participants"]

/-- database.py lines 94-98 (Database.load_item) and 145-150
(Database.load_items): the column-filtering loop
for key in item: if key not in columns: del item_[key],
run on a copy item_ of item, iterating over the keys of item. -/
def filterColumns (item : Record) (columns : List String) : Record :=
  (item.map Prod.fst).foldl
    (fun acc key => if columns.contains key then acc else dictDel acc key)
    item

/-- The record that Database.load_item actually inserts: the input record
restricted by the column-filtering loop. -/
def load_item_record (item : Record) (columns : List String) : Record :=
  filterColumns item columns

/-- The column-name list of the INSERT statement built by load_item
(database.py line 103): the keys of the filtered record, in order. -/
def load_item_cols (item : Record) (columns : List String) : List String :=
  (load_item_record item columns).map Prod.fst

/-- The tuple of values passed to cursor.execute by load_item
(database.py line 112): the values of the filtered record, in order. -/
def load_item_values (item : Record) (columns : List String) : List PyVal :=
  (load_item_record item columns).map Prod.snd

/-- database.py line 103: the rendered column list of the INSERT statement,
cols = "(" + ", ".join([x for x in item_]) + ")". -/
def load_item_cols_str (item : Record) (columns : List String) : String :=
  "(" ++ String.intercalate ", " (load_item_cols item columns) ++ ")"

/-- database.py line 102: the rendered placeholder row of the INSERT
statement, row = "(" + ", ".join(n copies of the placeholder) + ")". -/
def load_item_row_str (item : Record) (columns : List String) : String :=
  "(" ++
    String.intercalate ", " ((load_item_record item columns).map (fun _ => "%s"))
    ++ ")"

/-- A SQL INSERT statement is well formed only when its column list is
nonempty: INSERT INTO t () VALUES () is a syntax error. -/
def insertStmtWellFormed (cols : List String) : Prop := cols ≠ []

/-- An effect that Database.load_items performs against the connection. -/
inductive DbAction where
  | execValues (cols : List String) (rows : List (List PyVal))
  | commit
deriving Repr

/-- database.py lines 129-136 (Database.load_items): the column list of the
batch INSERT statement is computed from the FIRST record only (items[0]),
filtered by the column set of the table. Python raises IndexError on an
empty batch; the empty case is returned as none. -/
def load_items_cols (items : List Record) (columns : List String) :
    Option (List String) :=
  match items with
  | [] => none
  | first :: _ => some ((filterColumns first columns).map Prod.fst)

/-- database.py lines 145-152 (Database.load_items): each value row is the
record filtered by the COLUMN SET OF THE TABLE (the variable columns), not
by the first-record column list used for the statement. -/
def load_items_rows (items : List Record) (columns : List String) :
    List (List PyVal) :=
  items.map (fun item => (filterColumns item columns).map Prod.snd)

/-- database.py lines 154-156: load_items issues one execute_values call
for the whole batch and then one commit. -/
def load_items_trace (items : List Record) (columns : List String) :
    List DbAction :=
  [DbAction.execValues ((load_items_cols items columns).getD [])
      (load_items_rows items columns),
   DbAction.commit]

/-- A DROP ... ; CREATE ... AS SELECT * FROM ... statement, summarised by
the table it drops, the table it creates, and the table it selects from. -/
structure CreateAsSelect where
  dropped : String
  created : String
  source : String
deriving Repr, DecidableEq

/-- Renders a CreateAsSelect the way database.py formats it. -/
def createAsSelectSql (schema : String) (c : CreateAsSelect) : String :=
  "DROP TABLE IF EXISTS " ++ schema ++ "." ++ c.dropped ++ "; " ++
  "CREATE TABLE " ++ schema ++ "." ++ c.created ++
  " AS SELECT * FROM " ++ schema ++ "." ++ c.source

/-- database.py lines 50-58 (Database.backup_table): drops and recreates
table_backup as a snapshot of table. -/
def backup_table_stmt (table : String) : CreateAsSelect :=
  { dropped := table ++ "_backup"
    created := table ++ "_backup"
    source := table }

/-- database.py lines 60-68 (Database.revert_table): drops and recreates
table as a snapshot selected from table itself. -/
def revert_table_stmt (table : String) : CreateAsSelect :=
  { dropped := table
    created := table
    source := table }

/-- The SQL emitted by Database.revert_table, via the shared renderer. -/
def revert_table_sql (schema table : String) : String :=
  createAsSelectSql schema (revert_table_stmt table)

/-- database.py lines 172-176: the base SELECT of Database.get_item,
WHERE id= filters on the id column only. -/
def get_item_base_sql (schema table item_id : String) : String :=
  "SELECT * FROM " ++ schema ++ "." ++ table ++
  " WHERE id=" ++ sqlQuote ++ item_id ++ sqlQuote

/-- Executing the base SELECT of get_item against a table extension:
the rows whose id column equals the given identifier text. -/
def execute_select (rows : List Record) (item_id : String) : List Record :=
  rows.filter (fun r =>
    match dictGet r "id" with
    | some (PyVal.vStr s) => s == item_id
    | _ => false)

/-- database.py lines 170-185 (Database.get_item), transcribed in source
order: the SELECT filtered by id alone is executed FIRST (pd.read_sql on
line 177); only afterwards are the secondary exact-match filters appended
to the SQL string (lines 178-180), which is never re-executed; the first
row of the already-computed result (or none) is returned. The returned
pair is (result, final sql string). -/
def get_item (schema table : String) (rows : List Record) (item_id : String)
    (secondary : Option (List (String × String))) :
    Option Record × String :=
  let sql := get_item_base_sql schema table item_id
  let df := execute_select rows item_id
  let sql2 :=
    match secondary with
    | none => sql
    | some sec =>
        sec.foldl (fun s kv => s ++ " AND " ++ kv.1 ++ "=" ++ sqlQuote ++ kv.2 ++ sqlQuote)
          sql
  (df.head?, sql2)

/-! ## eventbrite.py : the ingestion driver -/

/-- A wall clock, modelling datetime.datetime.utcnow / datetime.now as a
strictly increasing sequence of readings: each reading is strictly greater
than every earlier one. -/
structure Clock where
  current : Nat
deriving Repr, DecidableEq

/-- One utcnow() call: returns the new reading and the advanced clock. -/
def utcnow (c : Clock) : Nat × Clock :=
  (c.current + 1, ⟨c.current + 1⟩)

/-- Python subscript d[k] on a dict: the value, or KeyError. -/
def pyGet (d : Record) (k : String) : Except PyError PyVal :=
  match dictGet d k with
  | some v => Except.ok v
  | none => Except.error (PyError.keyError k)

/-- Python subscript v[k] on an arbitrary value: KeyError on a dict
missing the key, TypeError when the value is not a dict. -/
def pySubscript (v : PyVal) (k : String) : Except PyError PyVal :=
  match v with
  | PyVal.vDict d => pyGet d k
  | _ => Except.error (PyError.typeError ("value is not subscriptable: " ++ k))

/-- d[k1][k2]. -/
def pyGet2 (d : Record) (k1 k2 : String) : Except PyError PyVal :=
  match pyGet d k1 with
  | Except.error e => Except.error e
  | Except.ok v => pySubscript v k2

/-- d[k1][k2][k3]. -/
def pyGet3 (d : Record) (k1 k2 k3 : String) : Except PyError PyVal :=
  match pyGet2 d k1 k2 with
  | Except.error e => Except.error e
  | Except.ok v => pySubscript v k3

/-- eventbrite.py lines 257-274 (EventbriteLoader.load_event): the
transformation applied to an event record before it is handed to
Database.load_item. Normalises start/end to instants, flattens
description and name, and stamps load_datetime with utcnow(). -/
def load_event_transform (c : Clock) (event : Record) :
    Except PyError (Record × Clock) :=
  match pyGet2 event "start" "utc" with
  | Except.error e => Except.error e
  | Except.ok startUtc =>
    let e1 := dictSet event "start_datetime" (PyVal.vUtcInstant startUtc)
    match pyGet2 e1 "end" "utc" with
    | Except.error e => Except.error e
    | Except.ok endUtc =>
      let e2 := dictSet e1 "end_datetime" (PyVal.vUtcInstant endUtc)
      match pyGet2 e2 "description" "text" with
      | Except.error e => Except.error e
      | Except.ok desc =>
        let e3 := dictSet e2 "description" desc
        match pyGet2 e3 "name" "text" with
        | Except.error e => Except.error e
        | Except.ok name =>
          let e4 := dictSet e3 "name" name
          let tc := utcnow c
          Except.ok (dictSet e4 "load_datetime" (PyVal.vTime tc.1), tc.2)

/-- The conditional profile-field copies of EventbriteLoader.load_attendee
(eventbrite.py lines 281-288): if k in profile then attendee[k] = profile[k]. -/
def setIfPresent (profile : Record) (attendee : Record) (k : String) : Record :=
  match dictGet profile k with
  | some v => dictSet attendee k v
  | none => attendee

/-- eventbrite.py lines 276-294 (EventbriteLoader.load_attendee): copies
optional profile fields, extracts the nested gross cost into a float cost
field, and stamps load_datetime with utcnow(). -/
def load_attendee_transform (c : Clock) (attendee : Record) :
    Except PyError (Record × Clock) :=
  match pyGet attendee "profile" with
  | Except.error e => Except.error e
  | Except.ok (PyVal.vDict profile) =>
      let a1 := setIfPresent profile attendee "name"
      let a2 := setIfPresent profile a1 "first_name"
      let a3 := setIfPresent profile a2 "last_name"
      let a4 := setIfPresent profile a3 "email"
      match pyGet3 a4 "costs" "gross" "major_value" with
      | Except.error e => Except.error e
      | Except.ok cost =>
        let a5 := dictSet a4 "cost" (PyVal.vFloatOf cost)
        let tc := utcnow c
        Except.ok (dictSet a5 "load_datetime" (PyVal.vTime tc.1), tc.2)
  | Except.ok _ =>
      Except.error (PyError.typeError "profile does not support membership test")

/-- eventbrite.py lines 296-304 (EventbriteLoader.load_order): extracts the
nested gross cost into a float cost field and stamps load_datetime with
utcnow(). -/
def load_order_transform (c : Clock) (order : Record) :
    Except PyError (Record × Clock) :=
  match pyGet3 order "costs" "gross" "major_value" with
  | Except.error e => Except.error e
  | Except.ok cost =>
    let o1 := dictSet order "cost" (PyVal.vFloatOf cost)
    let tc := utcnow c
    Except.ok (dictSet o1 "load_datetime" (PyVal.vTime tc.1), tc.2)

/-- The address-flattening loop of EventbriteLoader.load_venue
(eventbrite.py lines 310-312): for key in venue[address], re-reads
venue[address][key] each iteration and sets the value top-level. -/
def copyAddressKeys (keys : List String) (venue : Record) :
    Except PyError Record :=
  match keys with
  | [] => Except.ok venue
  | k :: rest =>
    match pyGet2 venue "address" k with
    | Except.error e => Except.error e
    | Except.ok val => copyAddressKeys rest (dictSet venue k val)

/-- eventbrite.py lines 306-316 (EventbriteLoader.load_venue): flattens the
nested address into top-level fields and converts latitude and longitude
with float(). Note: unlike the event, attendee, and order transformations,
no load_datetime field is set. -/
def load_venue_transform (venue : Record) : Except PyError Record :=
  match pyGet venue "address" with
  | Except.error e => Except.error e
  | Except.ok (PyVal.vDict addr) =>
      match copyAddressKeys (addr.map Prod.fst) venue with
      | Except.error e => Except.error e
      | Except.ok v1 =>
        match pyGet v1 "latitude" with
        | Except.error e => Except.error e
        | Except.ok lat =>
          let v2 := dictSet v1 "latitude" (PyVal.vFloatOf lat)
          match pyGet v2 "longitude" with
          | Except.error e => Except.error e
          | Except.ok lon =>
              Except.ok (dictSet v2 "longitude" (PyVal.vFloatOf lon))
  | Except.ok _ => Except.error (PyError.typeError "address value is not a dict")

/-- The pagination block carried by every Eventbrite list response. -/
structure Pagination where
  object_count : Nat
  page_number : Nat
  has_more_items : Bool
deriving Repr, DecidableEq

/-- An events-list response page: pagination metadata plus the events. -/
structure EventsPage where
  pagination : Pagination
  events : List PyVal
deriving Repr

/-- eventbrite.py lines 216-229 (EventbriteLoader.get_events): a fetch
returning no result triggers a 3600-second sleep, after which the code
calls Eventbrite.get_events(start=start, page=page) WITHOUT the required
positional argument org_id, so the retry raises TypeError instead of
repeating the request. The fetch oracle takes the attempt index, the
org id, the start filter and the page. The result pairs the outcome with
the list of sleep durations performed. -/
def loader_get_events (fetch : Nat → String → Option String → Nat → Option EventsPage)
    (org_id : String) (start : Option String) (page : Nat) :
    Except PyError (Option EventsPage) × List Nat :=
  match fetch 0 org_id start page with
  | some evs => (Except.ok (some evs), [])
  | none =>
      (Except.error (PyError.typeError
        "get_events missing 1 required positional argument: org_id"), [3600])

/-- eventbrite.py lines 231-243 (EventbriteLoader.get_attendees): a fetch
returning no result triggers a 3600-second sleep and one retry of the
identical request; a second empty result is returned as-is with no
further sleep. -/
def loader_get_attendees (fetch : Nat → String → Nat → Option EventsPage)
    (event_id : String) (page : Nat) :
    Except PyError (Option EventsPage) × List Nat :=
  match fetch 0 event_id page with
  | some a => (Except.ok (some a), [])
  | none =>
      match fetch 1 event_id page with
      | some a => (Except.ok (some a), [3600])
      | none => (Except.ok none, [3600])

/-- eventbrite.py lines 245-255 (EventbriteLoader.get_venue): a fetch
returning no result triggers a 3600-second sleep, after which the code
calls self.eventbrite.get_venue(event_id, page) where event_id is an
UNDEFINED NAME in that scope (the parameter is venue_id), so the retry
raises NameError instead of repeating the request. -/
def loader_get_venue (fetch : Nat → String → Nat → Option Record)
    (venue_id : String) (page : Nat) :
    Except PyError (Option Record) × List Nat :=
  match fetch 0 venue_id page with
  | some v => (Except.ok (some v), [])
  | none => (Except.error (PyError.nameError "event_id"), [3600])

/-- Python truthiness for the values this driver tests with if-not. -/
def pyTruthy : PyVal → Bool
  | PyVal.vNull => false
  | PyVal.vBool b => b
  | PyVal.vInt n => n != 0
  | PyVal.vStr s => s != ""
  | PyVal.vTime _ => true
  | PyVal.vFloatOf _ => true
  | PyVal.vUtcInstant _ => true
  | PyVal.vDict d => !d.isEmpty

/-- The observable outcome of one EventbriteLoader.run: the events pages
fetched in order, the non-falsy events processed, and the materialized
views refreshed at the end. -/
structure RunOutcome where
  fetchedPages : List Nat
  processed : List PyVal
  refreshedViews : List String
deriving Repr

/-- eventbrite.py lines 161-213: the while more_events pagination loop of
EventbriteLoader.run. Each iteration processes the events of the current
page (skipping falsy entries), then either exits when has_more_items is
false or fetches the page numbered page_number + 1 of the current
response. The per-event body (delete+load, venue handling, attendee
paging, sleep) never assigns the loop variables events or more_events, so
it is tracked here only as the list of processed events; fuel bounds the
recursion and none means the fuel ran out before the loop exited. -/
def eventsLoop (api : Nat → EventsPage) :
    Nat → EventsPage → List Nat → List PyVal → Option (List Nat × List PyVal)
  | 0, _, _, _ => none
  | fuel + 1, events, pages, processed =>
    let processed2 := processed ++ events.events.filter pyTruthy
    if events.pagination.has_more_items = false then
      some (pages, processed2)
    else
      let page := events.pagination.page_number + 1
      eventsLoop api fuel (api page) (pages ++ [page]) processed2

/-- eventbrite.py lines 141-214 (EventbriteLoader.run), at the granularity
of events-page fetches: fetch page 1; if the reported object_count is zero
print and return immediately (no event processed, no view refreshed);
otherwise run the pagination loop and, on completion, refresh all
materialized views. The api oracle models an events fetch that succeeds
(the empty-response retry path is modelled separately by
loader_get_events). -/
def run (api : Nat → EventsPage) (fuel : Nat) : Option RunOutcome :=
  let events := api 1
  if events.pagination.object_count = 0 then
    some ⟨[1], [], []⟩
  else
    match eventsLoop api fuel events [1] [] with
    | none => none
    | some (pages, processed) => some ⟨pages, processed, MATERIALIZED_VIEWS⟩

/-- The synthetic events API of the pagination-termination property:
page p reports object_count N, its own page number, has_more_items true
exactly for pages below N, and no events. -/
def syntheticApi (N : Nat) : Nat → EventsPage := fun page =>
  ⟨⟨N, page, decide (page < N)⟩, []⟩

/-- The list [s, s+1, ..., s+n-1] of pages a run fetches. -/
def pagesFrom (s : Nat) : Nat → List Nat
  | 0 => []
  | n + 1 => s :: pagesFrom (s + 1) n

/-- An action of the venue-handling block of EventbriteLoader.run. -/
inductive VenueAction where
  | dbLookup (venue_id : PyVal)
  | apiFetch (venue_id : PyVal)
  | loadVenue
deriving Repr

/-- eventbrite.py lines 174-180, the venue-handling block of run:
venue_ = database.get_item(venues, venue_id) is executed unconditionally,
BEFORE venue_id is tested for truthiness; the venue fetch and load run
only when venue_id is truthy and the lookup found no row. The dbGetItem
oracle is the venues-table point lookup. -/
def venue_step (dbGetItem : PyVal → Option Record) (venue_id : PyVal) :
    List VenueAction :=
  let venueRow := dbGetItem venue_id
  VenueAction.dbLookup venue_id ::
    (if pyTruthy venue_id && venueRow.isNone then
      [VenueAction.apiFetch venue_id, VenueAction.loadVenue]
    else [])

/-! ## Concrete inputs used by counterexamples and witnesses -/

/-- Extracts the record of a successful fallible transformation. -/
def exceptRecord : Except PyError Record → Option Record
  | Except.ok r => some r
  | Except.error _ => none

/-- A venue payload as returned by the venues endpoint: identifier, nested
address, textual coordinates. -/
def c3Venue : Record :=
  [("id", PyVal.vStr "V1"),
   ("address", PyVal.vDict [("city", PyVal.vStr "Atlanta")]),
   ("latitude", PyVal.vStr "33.7"),
   ("longitude", PyVal.vStr "-84.4")]

/-- The record load_venue hands to Database.load_item for c3Venue: address
flattened, coordinates converted, and no load_datetime field. -/
def c3VenueOut : Record :=
  [("id", PyVal.vStr "V1"),
   ("address", PyVal.vDict [("city", PyVal.vStr "Atlanta")]),
   ("latitude", PyVal.vFloatOf (PyVal.vStr "33.7")),
   ("longitude", PyVal.vFloatOf (PyVal.vStr "-84.4")),
   ("city", PyVal.vStr "Atlanta")]

/-- An event payload with the nested shapes load_event expects. -/
def c3Event : Record :=
  [("id", PyVal.vStr "E1"),
   ("name", PyVal.vDict [("text", PyVal.vStr "Gala")]),
   ("description", PyVal.vDict [("text", PyVal.vStr "Fun")]),
   ("start", PyVal.vDict [("utc", PyVal.vStr "2019-01-01T00:00:00Z")]),
   ("end", PyVal.vDict [("utc", PyVal.vStr "2019-01-02T00:00:00Z")])]

/-- The record load_event hands to Database.load_item for c3Event when the
clock reads 1 before the transformation call. -/
def c3EventOut : Record :=
  [("id", PyVal.vStr "E1"),
   ("name", PyVal.vStr "Gala"),
   ("description", PyVal.vStr "Fun"),
   ("start", PyVal.vDict [("utc", PyVal.vStr "2019-01-01T00:00:00Z")]),
   ("end", PyVal.vDict [("utc", PyVal.vStr "2019-01-02T00:00:00Z")]),
   ("start_datetime", PyVal.vUtcInstant (PyVal.vStr "2019-01-01T00:00:00Z")),
   ("end_datetime", PyVal.vUtcInstant (PyVal.vStr "2019-01-02T00:00:00Z")),
   ("load_datetime", PyVal.vTime 2)]

/-- An attendee payload with the nested shapes load_attendee expects. -/
def c3Attendee : Record :=
  [("id", PyVal.vStr "A1"),
   ("profile", PyVal.vDict [("name", PyVal.vStr "Pat")]),
   ("costs", PyVal.vDict
      [("gross", PyVal.vDict [("major_value", PyVal.vStr "12.50")])])]

/-- The record load_attendee hands to Database.load_item for c3Attendee
when the clock reads 1 before the transformation call. -/
def c3AttendeeOut : Record :=
  [("id", PyVal.vStr "A1"),
   ("profile", PyVal.vDict [("name", PyVal.vStr "Pat")]),
   ("costs", PyVal.vDict
      [("gross", PyVal.vDict [("major_value", PyVal.vStr "12.50")])]),
   ("name", PyVal.vStr "Pat"),
   ("cost", PyVal.vFloatOf (PyVal.vStr "12.50")),
   ("load_datetime", PyVal.vTime 2)]

/-- An order payload with the nested shapes load_order expects. -/
def c3Order : Record :=
  [("id", PyVal.vStr "O1"),
   ("costs", PyVal.vDict
      [("gross", PyVal.vDict [("major_value", PyVal.vStr "20.00")])])]

/-- The record load_order hands to Database.load_item for c3Order when the
clock reads 1 before the transformation call. -/
def c3OrderOut : Record :=
  [("id", PyVal.vStr "O1"),
   ("costs", PyVal.vDict
      [("gross", PyVal.vDict [("major_value", PyVal.vStr "20.00")])]),
   ("cost", PyVal.vFloatOf (PyVal.vStr "20.00")),
   ("load_datetime", PyVal.vTime 2)]

/-- A one-row widgets table whose single row has id 1 and x = 2. -/
def c5Table : List Record := [[("id", PyVal.vStr "1"), ("x", PyVal.vInt 2)]]

/-! ## Dictionary lemmas -/

theorem dictGet_dictSet_self {α : Type} (d : List (String × α)) (k : String)
    (v : α) : dictGet (dictSet d k v) k = some v := by
  induction d with
  | nil => simp [dictSet, dictGet]
  | cons hd tl ih =>
      obtain ⟨k1, v1⟩ := hd
      cases hk : (k1 == k) <;> simp [dictSet, dictGet, hk, ih]

theorem dictGet_dictSet_ne {α : Type} (d : List (String × α)) (k k2 : String)
    (v : α) (h : k ≠ k2) : dictGet (dictSet d k v) k2 = dictGet d k2 := by
  have hbeq : (k == k2) = false := by simp [h]
  induction d with
  | nil => simp [dictSet, dictGet, hbeq]
  | cons hd tl ih =>
      obtain ⟨k1, v1⟩ := hd
      cases hk : (k1 == k)
      · cases hk2 : (k1 == k2) <;> simp [dictSet, dictGet, hk, hk2, ih]
      · have : k1 = k := eq_of_beq hk
        subst this
        simp [dictSet, dictGet, hk, hbeq]

theorem dictGet_eq_none {α : Type} (d : List (String × α)) (k : String)
    (h : k ∉ d.map Prod.fst) : dictGet d k = none := by
  induction d with
  | nil => simp [dictGet]
  | cons hd tl ih =>
      obtain ⟨k1, v1⟩ := hd
      simp only [List.map_cons, List.mem_cons, not_or] at h
      have hk : (k1 == k) = false := by
        simp only [beq_eq_false_iff_ne]
        exact fun he => h.1 (by simp [he])
      simp [dictGet, hk, ih h.2]

theorem dictGet_of_mem_nodup {α : Type} (d : List (String × α))
    (hnd : (d.map Prod.fst).Nodup) (p : String × α) (hp : p ∈ d) :
    dictGet d p.1 = some p.2 := by
  induction d with
  | nil => cases hp
  | cons hd tl ih =>
      obtain ⟨k1, v1⟩ := hd
      simp only [List.map_cons, List.nodup_cons] at hnd
      cases hp with
      | head => simp [dictGet]
      | tail _ hp =>
          have hne : (k1 == p.1) = false := by
            simp only [beq_eq_false_iff_ne]
            intro he
            exact hnd.1 (he ▸ List.mem_map_of_mem Prod.fst hp)
          simp [dictGet, hne, ih hnd.2 hp]

theorem dictDel_eq_filter {α : Type} (d : List (String × α)) (k : String)
    (hnd : (d.map Prod.fst).Nodup) :
    dictDel d k = d.filter (fun p => !(p.1 == k)) := by
  induction d with
  | nil => simp [dictDel]
  | cons hd tl ih =>
      obtain ⟨k1, v1⟩ := hd
      simp only [List.map_cons, List.nodup_cons] at hnd
      cases hk : (k1 == k)
      · simp [dictDel, hk, ih hnd.2]
      · have hk1 : k1 = k := eq_of_beq hk
        subst hk1
        have : tl.filter (fun p => !(p.1 == k1)) = tl := by
          apply List.filter_eq_self.mpr
          intro p hp
          simp only [Bool.not_eq_true', beq_eq_false_iff_ne]
          intro he
          exact hnd.1 (he ▸ List.mem_map_of_mem Prod.fst hp)
        simp [dictDel, hk, this]

theorem dictGet_filter {α : Type} (d : List (String × α)) (q : String → Bool)
    (k : String) :
    dictGet (d.filter (fun p => q p.1)) k =
      if q k then dictGet d k else none := by
  induction d with
  | nil => simp [dictGet]
  | cons hd tl ih =>
      obtain ⟨k1, v1⟩ := hd
      cases hk : (k1 == k)
      · cases hq : q k1 <;>
          simp [List.filter_cons, hq, dictGet, hk, ih]
      · have hk1 : k1 = k := eq_of_beq hk
        subst hk1
        cases hq : q k1 <;>
          simp [List.filter_cons, hq, dictGet, hk, ih]

theorem nodup_keys_filter {α : Type} (d : List (String × α))
    (f : String × α → Bool) (hnd : (d.map Prod.fst).Nodup) :
    ((d.filter f).map Prod.fst).Nodup :=
  hnd.sublist ((List.filter_sublist d).map Prod.fst)

theorem foldl_del_eq_filter {α : Type} (columns : List String)
    (ks : List String) (acc : List (String × α))
    (hnd : (acc.map Prod.fst).Nodup) :
    ks.foldl (fun acc2 key =>
        if columns.contains key then acc2 else dictDel acc2 key) acc =
      acc.filter (fun p => columns.contains p.1 || !(ks.contains p.1)) := by
  induction ks generalizing acc with
  | nil =>
      simp only [List.foldl_nil]
      symm
      apply List.filter_eq_self.mpr
      intro p _
      simp
  | cons k ks ih =>
      simp only [List.foldl_cons]
      cases hc : columns.contains k
      · rw [if_neg (by simp [hc])]
        rw [dictDel_eq_filter acc k hnd]
        rw [ih _ (nodup_keys_filter acc _ hnd), List.filter_filter]
        apply List.filter_congr
        intro p _
        cases hpk : (p.1 == k)
        · have hne : p.1 ≠ k := by simpa using hpk
          simp [List.contains_cons, hne]
        · have heq : p.1 = k := eq_of_beq hpk
          have hnc : k ∉ columns := by simpa using hc
          simp [List.contains_cons, heq, hnc]
      · rw [if_pos (by simp [hc])]
        rw [ih _ hnd]
        apply List.filter_congr
        intro p _
        cases hpk : (p.1 == k)
        · have hne : p.1 ≠ k := by simpa using hpk
          simp [List.contains_cons, hne]
        · have heq : p.1 = k := eq_of_beq hpk
          have hkc : k ∈ columns := by simpa using hc
          simp [List.contains_cons, heq, hkc]

theorem filterColumns_eq_filter (item : Record) (columns : List String)
    (hnd : (item.map Prod.fst).Nodup) :
    filterColumns item columns =
      item.filter (fun p => columns.contains p.1) := by
  unfold filterColumns
  rw [foldl_del_eq_filter columns (item.map Prod.fst) item hnd]
  apply List.filter_congr
  intro p hp
  have hmem : (item.map Prod.fst).contains p.1 = true :=
    List.elem_eq_true_of_mem (List.mem_map_of_mem Prod.fst hp)
  simp only [hmem, Bool.not_true, Bool.or_false]

/-! ## Claims -/

/-- C1: for every record r and destination table t, load_item persists
into t exactly the fields of r whose names are also in the column set of
t, with the same field-to-value associations, and silently drops every
other field before the insert; the filtering is total, so no
schema-violation error is raised for unrecognized fields. The first
conjunct characterises the persisted mapping field by field; the second
says every column-value pair of the generated insert is an association of
the original record. -/
theorem c1_load_item_column_intersection (item : Record)
    (columns : List String) (hnd : (item.map Prod.fst).Nodup) :
    (∀ key, dictGet (load_item_record item columns) key =
        if columns.contains key then dictGet item key else none)
    ∧ (∀ p ∈ (load_item_cols item columns).zip (load_item_values item columns),
        dictGet item p.1 = some p.2) := by
  have hfc := filterColumns_eq_filter item columns hnd
  constructor
  · intro key
    unfold load_item_record
    rw [hfc, dictGet_filter]
  · intro p hp
    unfold load_item_cols load_item_values load_item_record at hp
    rw [List.zip_map'] at hp
    obtain ⟨q, hq, hqp⟩ := List.mem_map.mp hp
    have hq2 : q ∈ item := by
      rw [hfc] at hq
      exact (List.mem_filter.mp hq).1
    have hget := dictGet_of_mem_nodup item hnd q hq2
    rw [← hqp]
    simpa using hget

/-- Witness for C1 at a concrete record and column set: the junk field is
dropped and the id field is kept with its value. -/
theorem c1_witness :
    (dictGet (load_item_record [("id", PyVal.vStr "1"), ("junk", PyVal.vInt 7)]
        ["id", "name"]) "junk" =
      if (["id", "name"] : List String).contains "junk" then
        dictGet [("id", PyVal.vStr "1"), ("junk", PyVal.vInt 7)] "junk" else none)
    ∧ (dictGet (load_item_record [("id", PyVal.vStr "1"), ("junk", PyVal.vInt 7)]
        ["id", "name"]) "id" =
      if (["id", "name"] : List String).contains "id" then
        dictGet [("id", PyVal.vStr "1"), ("junk", PyVal.vInt 7)] "id" else none) := by
  have h := c1_load_item_column_intersection
    [("id", PyVal.vStr "1"), ("junk", PyVal.vInt 7)] ["id", "name"] (by decide)
  exact ⟨h.1 "junk", h.1 "id"⟩

/-- C10: when the intersection of the record fields and the table column
set is empty, load_item builds an INSERT statement with empty column and
value lists, which is not valid SQL; when at least one field of the record
names a column of the table, the column list is nonempty and this
malformed shape is unreachable. -/
theorem c10_load_item_wellformedness (item : Record) (columns : List String)
    (hnd : (item.map Prod.fst).Nodup) :
    (load_item_record item columns = [] →
        load_item_cols_str item columns = "()"
        ∧ load_item_row_str item columns = "()"
        ∧ ¬ insertStmtWellFormed (load_item_cols item columns))
    ∧ ((∃ p ∈ item, columns.contains p.1 = true) →
        insertStmtWellFormed (load_item_cols item columns)) := by
  constructor
  · intro h
    refine ⟨?_, ?_, ?_⟩
    · unfold load_item_cols_str load_item_cols
      rw [h]
      rfl
    · unfold load_item_row_str
      rw [h]
      rfl
    · unfold insertStmtWellFormed load_item_cols
      rw [h]
      simp
  · rintro ⟨p, hp, hcp⟩
    unfold insertStmtWellFormed load_item_cols load_item_record
    rw [filterColumns_eq_filter item columns hnd]
    have hmem : p ∈ item.filter (fun q => columns.contains q.1) :=
      List.mem_filter.mpr ⟨hp, hcp⟩
    intro hcon
    have hnil : item.filter (fun q => columns.contains q.1) = [] := by
      simpa using hcon
    rw [hnil] at hmem
    cases hmem

/-- Witness for C10: a record sharing no field with the table yields the
malformed empty-list statement; a record whose id field is a table column
yields a well-formed one. -/
theorem c10_witness :
    (load_item_cols_str [("junk", PyVal.vInt 1)] ["id"] = "()"
      ∧ load_item_row_str [("junk", PyVal.vInt 1)] ["id"] = "()"
      ∧ ¬ insertStmtWellFormed (load_item_cols [("junk", PyVal.vInt 1)] ["id"]))
    ∧ insertStmtWellFormed (load_item_cols [("id", PyVal.vStr "1")] ["id"]) := by
  constructor
  · exact (c10_load_item_wellformedness [("junk", PyVal.vInt 1)] ["id"]
      (by decide)).1 rfl
  · exact (c10_load_item_wellformedness [("id", PyVal.vStr "1")] ["id"]
      (by decide)).2 ⟨("id", PyVal.vStr "1"), by simp, by decide⟩

/-- C6: for every table name, revert_table drops the table and recreates
it as a snapshot selected from the table itself, a pass-through, and in
particular does not select from the table_backup table that backup_table
writes. -/
theorem c6_revert_table_pass_through (table : String) :
    (revert_table_stmt table).dropped = table
    ∧ (revert_table_stmt table).created = table
    ∧ (revert_table_stmt table).source = table
    ∧ (revert_table_stmt table).source ≠ table ++ "_backup"
    ∧ (backup_table_stmt table).source = table := by
  refine ⟨rfl, rfl, rfl, ?_, rfl⟩
  have hsrc : (revert_table_stmt table).source = table := rfl
  rw [hsrc]
  intro h
  have hlen := congrArg String.length h
  rw [String.length_append] at hlen
  have h7 : ("_backup" : String).length = 7 := rfl
  rw [h7] at hlen
  omega

/-- C4 counterexample: with table columns a and b and a batch whose first
record has only field a while the second has valid fields a and b, the
statement column list is computed from the first record alone, but the
extra valid column b of the second record is NOT dropped from that
record: its value stays in the second value row, which therefore does not
match the one-column statement. -/
theorem c4_counterexample_extra_column_retained :
    load_items_cols
        [[("a", PyVal.vInt 1)], [("a", PyVal.vInt 2), ("b", PyVal.vInt 3)]]
        ["a", "b"] = some ["a"]
    ∧ load_items_rows
        [[("a", PyVal.vInt 1)], [("a", PyVal.vInt 2), ("b", PyVal.vInt 3)]]
        ["a", "b"] = [[PyVal.vInt 1], [PyVal.vInt 2, PyVal.vInt 3]]
    ∧ [PyVal.vInt 2, PyVal.vInt 3] ≠ [PyVal.vInt 2] := by
  refine ⟨rfl, rfl, ?_⟩
  intro h
  have := congrArg List.length h
  simp at this

/-- C4 amended: the statement column list of load_items comes from the
first record only; each value row keeps every field of its own record
whose name is in the table column set (so later records retain, rather
than drop, valid columns absent from the first record, misaligned with
the statement column list); the whole batch is one execute_values
statement followed by one commit. -/
theorem c4_load_items_batch (first : Record) (rest : List Record)
    (columns : List String)
    (hnd : ∀ it ∈ first :: rest, (it.map Prod.fst).Nodup) :
    load_items_cols (first :: rest) columns =
      some ((first.filter (fun p => columns.contains p.1)).map Prod.fst)
    ∧ load_items_rows (first :: rest) columns =
      (first :: rest).map
        (fun it => (it.filter (fun p => columns.contains p.1)).map Prod.snd)
    ∧ load_items_trace (first :: rest) columns =
      [DbAction.execValues
          ((first.filter (fun p => columns.contains p.1)).map Prod.fst)
          (load_items_rows (first :: rest) columns),
        DbAction.commit] := by
  have hfirst := filterColumns_eq_filter first columns
    (hnd first (List.mem_cons_self first rest))
  refine ⟨?_, ?_, ?_⟩
  · simp only [load_items_cols]
    rw [hfirst]
  · unfold load_items_rows
    apply List.map_congr_left
    intro it hit
    rw [filterColumns_eq_filter it columns (hnd it hit)]
  · simp only [load_items_trace, load_items_cols]
    rw [hfirst]
    rfl

/-- Witness for C4 amended at the counterexample batch. -/
theorem c4_witness :
    load_items_cols
        [[("a", PyVal.vInt 1)], [("a", PyVal.vInt 2), ("b", PyVal.vInt 3)]]
        ["a", "b"] =
      some (([("a", PyVal.vInt 1)].filter
          (fun p => (["a", "b"] : List String).contains p.1)).map Prod.fst)
    ∧ load_items_rows
        [[("a", PyVal.vInt 1)], [("a", PyVal.vInt 2), ("b", PyVal.vInt 3)]]
        ["a", "b"] =
      ([[("a", PyVal.vInt 1)], [("a", PyVal.vInt 2), ("b", PyVal.vInt 3)]]).map
        (fun it =>
          (it.filter (fun p => (["a", "b"] : List String).contains p.1)).map
            Prod.snd) := by
  have h := c4_load_items_batch [("a", PyVal.vInt 1)]
    [[("a", PyVal.vInt 2), ("b", PyVal.vInt 3)]] ["a", "b"]
    (by intro it hit; fin_cases hit <;> decide)
  exact ⟨h.1, h.2.1⟩

/-- C5 evaluated at a failing input: the widgets table has one row with
id 1 and x = 2; get_item with identifier 1 and secondary filter x = 3
returns that row even though it violates the secondary filter, because
the filter clauses are appended to the SQL string only after the query
has been executed; the appended clause is visible in the final SQL string
but never ran. -/
theorem c5_secondary_filters_ignored :
    (get_item "myschema" "widgets" c5Table "1" (some [("x", "3")])).1 =
      some [("id", PyVal.vStr "1"), ("x", PyVal.vInt 2)]
    ∧ dictGet [("id", PyVal.vStr "1"), ("x", PyVal.vInt 2)] "x" =
      some (PyVal.vInt 2)
    ∧ PyVal.vInt 2 ≠ PyVal.vStr "3"
    ∧ (get_item "myschema" "widgets" c5Table "1" (some [("x", "3")])).2 =
      get_item_base_sql "myschema" "widgets" "1" ++
        " AND x=" ++ sqlQuote ++ "3" ++ sqlQuote := by
  refine ⟨rfl, rfl, ?_, rfl⟩
  intro h
  exact PyVal.noConfusion h

/-- C2 evaluated at failing inputs: with a first fetch that returns no
result, the venue wrapper sleeps 3600 once and then raises NameError on
the undefined name event_id instead of retrying; the events wrapper
sleeps 3600 once and then raises TypeError for the missing org_id
argument instead of retrying; only the attendees wrapper retries the
identical request once, and a second empty result propagates with no
further sleep, while a successful retry returns the fetched page. -/
theorem c2_retry_divergence :
    loader_get_venue (fun _ _ _ => none) "V1" 1 =
      (Except.error (PyError.nameError "event_id"), [3600])
    ∧ loader_get_events (fun _ _ _ _ => none) "ORG1" none 1 =
      (Except.error (PyError.typeError
        "get_events missing 1 required positional argument: org_id"), [3600])
    ∧ loader_get_attendees (fun _ _ _ => none) "E1" 1 =
      (Except.ok none, [3600])
    ∧ loader_get_attendees
        (fun attempt _ _ =>
          if attempt = 0 then none else some ⟨⟨1, 1, false⟩, []⟩) "E1" 1 =
      (Except.ok (some ⟨⟨1, 1, false⟩, []⟩), [3600]) :=
  ⟨rfl, rfl, rfl, rfl⟩

/-- C9: for every event processed by run, the venues point lookup is the
first action of the venue-handling block, issued with the venue reference
of the event before that reference is tested for presence, so a database
lookup occurs even when the reference is null; the venue API fetch and
venue load happen exactly when the reference is truthy and the lookup
returned no row. -/
theorem c9_venue_lookup_before_check (dbGetItem : PyVal → Option Record)
    (venue_id : PyVal) :
    (venue_step dbGetItem venue_id).head? =
      some (VenueAction.dbLookup venue_id)
    ∧ (venue_step dbGetItem venue_id =
        [VenueAction.dbLookup venue_id, VenueAction.apiFetch venue_id,
          VenueAction.loadVenue]
      ↔ (pyTruthy venue_id = true ∧ dbGetItem venue_id = none))
    ∧ venue_step dbGetItem PyVal.vNull =
        [VenueAction.dbLookup PyVal.vNull] := by
  refine ⟨rfl, ?_, rfl⟩
  unfold venue_step
  cases ht : pyTruthy venue_id
  · simp [ht]
  · cases hdb : dbGetItem venue_id <;> simp [ht, hdb, Option.isNone]

theorem pagesFrom_length (n : Nat) : ∀ s : Nat, (pagesFrom s n).length = n := by
  induction n with
  | zero => intro s; rfl
  | succ n ih => intro s; simp [pagesFrom, ih]

theorem eventsLoop_syntheticApi (N : Nat) :
    ∀ (fuel p : Nat) (pages : List Nat) (processed : List PyVal),
      1 ≤ p → p ≤ N → N - p < fuel →
      eventsLoop (syntheticApi N) fuel (syntheticApi N p) pages processed =
        some (pages ++ pagesFrom (p + 1) (N - p), processed) := by
  intro fuel
  induction fuel with
  | zero => intro p pages processed _ _ h; omega
  | succ fuel ih =>
      intro p pages processed h1 h2 h3
      by_cases hlt : p < N
      · have hmore : (syntheticApi N p).pagination.has_more_items = true := by
          simp [syntheticApi, hlt]
        have hpage : (syntheticApi N p).pagination.page_number = p := rfl
        have hstep : N - (p + 1) < fuel := by omega
        rw [eventsLoop]
        simp only [syntheticApi, List.filter_nil, List.append_nil]
        rw [if_neg (by simp [hlt])]
        have := ih (p + 1) (pages ++ [p + 1]) processed (by omega) (by omega)
          hstep
        simp only [syntheticApi] at this
        rw [this]
        have hsplit : N - p = (N - (p + 1)) + 1 := by omega
        rw [hsplit]
        simp [pagesFrom, List.append_assoc]
      · have hnp : N - p = 0 := by omega
        rw [eventsLoop]
        simp [syntheticApi, hlt, hnp, pagesFrom]

/-- C7: for a synthetic API returning N event pages with has_more_items
true on pages 1..N-1 and false on page N, run issues exactly the
events-page fetches 1, 2, ..., N (each loop step advancing to the page
number reported by the response plus one) and terminates, for any fuel of
at least N; the fetched-page list has length N. -/
theorem c7_pagination_termination (N fuel : Nat) (h1 : 1 ≤ N)
    (hf : N ≤ fuel) :
    run (syntheticApi N) fuel =
      some ⟨pagesFrom 1 N, [], MATERIALIZED_VIEWS⟩
    ∧ (pagesFrom 1 N).length = N := by
  refine ⟨?_, pagesFrom_length N 1⟩
  unfold run
  rw [if_neg (by simp [syntheticApi]; omega)]
  have := eventsLoop_syntheticApi N fuel 1 [1] [] (by omega) h1 (by omega)
  rw [this]
  have hsplit : N = (N - 1) + 1 := by omega
  rw [hsplit]
  simp only [Nat.add_sub_cancel, pagesFrom]
  rfl

/-- Witness for C7 at N = 3 with fuel 3: pages 1, 2, 3 are fetched. -/
theorem c7_witness :
    run (syntheticApi 3) 3 =
      some ⟨pagesFrom 1 3, [], MATERIALIZED_VIEWS⟩
    ∧ (pagesFrom 1 3).length = 3 :=
  c7_pagination_termination 3 3 (by decide) (by decide)

/-- C8: if the first events page reports an object count of zero, run
returns after that single fetch, with no event processed and no
materialized view refreshed; and whenever a run completes with an
outcome, a nonzero first-page object count means all configured
materialized views were refreshed. -/
theorem c8_zero_count_and_refresh (api : Nat → EventsPage) (fuel : Nat) :
    ((api 1).pagination.object_count = 0 →
      run api fuel = some ⟨[1], [], []⟩)
    ∧ (∀ outcome, run api fuel = some outcome →
        (api 1).pagination.object_count ≠ 0 →
        outcome.refreshedViews = MATERIALIZED_VIEWS) := by
  constructor
  · intro h
    unfold run
    rw [if_pos h]
  · intro outcome hrun hne
    unfold run at hrun
    rw [if_neg hne] at hrun
    cases heq : eventsLoop api fuel (api 1) [1] [] with
    | none => rw [heq] at hrun; cases hrun
    | some pp =>
        rw [heq] at hrun
        obtain ⟨pages, processed⟩ := pp
        cases hrun
        rfl

/-- Witness for C8: a zero-count API exits after one fetch without
refreshing; a one-page API completes and refreshes every view. -/
theorem c8_witness :
    run (syntheticApi 0) 5 = some ⟨[1], [], []⟩
    ∧ (⟨[1], [], MATERIALIZED_VIEWS⟩ : RunOutcome).refreshedViews =
        MATERIALIZED_VIEWS := by
  constructor
  · exact (c8_zero_count_and_refresh (syntheticApi 0) 5).1 rfl
  · exact (c8_zero_count_and_refresh (syntheticApi 1) 5).2
      ⟨[1], [], MATERIALIZED_VIEWS⟩ rfl (by decide)

theorem load_event_transform_stamp (c : Clock) (event rec : Record)
    (c2 : Clock) (h : load_event_transform c event = Except.ok (rec, c2)) :
    dictGet rec "load_datetime" = some (PyVal.vTime (c.current + 1)) := by
  unfold load_event_transform at h
  cases h1 : pyGet2 event "start" "utc" with
  | error e => simp [h1] at h
  | ok startUtc =>
      simp only [h1] at h
      cases h2 : pyGet2 (dictSet event "start_datetime"
          (PyVal.vUtcInstant startUtc)) "end" "utc" with
      | error e => simp [h2] at h
      | ok endUtc =>
          simp only [h2] at h
          cases h3 : pyGet2 (dictSet (dictSet event "start_datetime"
              (PyVal.vUtcInstant startUtc)) "end_datetime"
              (PyVal.vUtcInstant endUtc)) "description" "text" with
          | error e => simp [h3] at h
          | ok desc =>
              simp only [h3] at h
              cases h4 : pyGet2 (dictSet (dictSet (dictSet event
                  "start_datetime" (PyVal.vUtcInstant startUtc))
                  "end_datetime" (PyVal.vUtcInstant endUtc))
                  "description" desc) "name" "text" with
              | error e => simp [h4] at h
              | ok name =>
                  simp only [h4] at h
                  injection h with hpair
                  injection hpair with hrec hclock
                  rw [← hrec, dictGet_dictSet_self]
                  rfl

theorem load_attendee_transform_stamp (c : Clock) (attendee rec : Record)
    (c2 : Clock)
    (h : load_attendee_transform c attendee = Except.ok (rec, c2)) :
    dictGet rec "load_datetime" = some (PyVal.vTime (c.current + 1)) := by
  unfold load_attendee_transform at h
  cases h1 : pyGet attendee "profile" with
  | error e => simp [h1] at h
  | ok profv =>
      simp only [h1] at h
      cases profv with
      | vDict profile =>
          cases h2 : pyGet3 (setIfPresent profile (setIfPresent profile
              (setIfPresent profile (setIfPresent profile attendee "name")
              "first_name") "last_name") "email")
              "costs" "gross" "major_value" with
          | error e => simp [h2] at h
          | ok cost =>
              simp only [h2] at h
              injection h with hpair
              injection hpair with hrec hclock
              rw [← hrec, dictGet_dictSet_self]
              rfl
      | vNull => exact Except.noConfusion h
      | vBool b => exact Except.noConfusion h
      | vInt n => exact Except.noConfusion h
      | vStr s => exact Except.noConfusion h
      | vTime t => exact Except.noConfusion h
      | vFloatOf a => exact Except.noConfusion h
      | vUtcInstant a => exact Except.noConfusion h

theorem load_order_transform_stamp (c : Clock) (order rec : Record)
    (c2 : Clock) (h : load_order_transform c order = Except.ok (rec, c2)) :
    dictGet rec "load_datetime" = some (PyVal.vTime (c.current + 1)) := by
  unfold load_order_transform at h
  cases h1 : pyGet3 order "costs" "gross" "major_value" with
  | error e => simp [h1] at h
  | ok cost =>
      simp only [h1] at h
      injection h with hpair
      injection hpair with hrec hclock
      rw [← hrec, dictGet_dictSet_self]
      rfl

theorem copyAddressKeys_preserves (keys : List String) :
    ∀ (venue v1 : Record), copyAddressKeys keys venue = Except.ok v1 →
      "load_datetime" ∉ keys →
      dictGet venue "load_datetime" = none →
      dictGet v1 "load_datetime" = none := by
  induction keys with
  | nil =>
      intro venue v1 h _ hn
      unfold copyAddressKeys at h
      injection h with h1
      rw [← h1]
      exact hn
  | cons k rest ih =>
      intro venue v1 h hk hn
      unfold copyAddressKeys at h
      cases hg : pyGet2 venue "address" k with
      | error e => simp [hg] at h
      | ok val =>
          simp only [hg] at h
          apply ih _ _ h
          · intro hmem
            exact hk (List.mem_cons_of_mem _ hmem)
          · have hkne : k ≠ "load_datetime" := by
              intro he
              exact hk (he ▸ List.mem_cons_self _ _)
            rw [dictGet_dictSet_ne _ _ _ _ hkne]
            exact hn

theorem load_venue_transform_no_stamp (venue rec : Record)
    (addr : List (String × PyVal))
    (haddr : dictGet venue "address" = some (PyVal.vDict addr))
    (hcont : "load_datetime" ∉ addr.map Prod.fst)
    (hnone : dictGet venue "load_datetime" = none)
    (h : load_venue_transform venue = Except.ok rec) :
    dictGet rec "load_datetime" = none := by
  unfold load_venue_transform at h
  have h1 : pyGet venue "address" = Except.ok (PyVal.vDict addr) := by
    unfold pyGet
    rw [haddr]
  simp only [h1] at h
  cases hck : copyAddressKeys (addr.map Prod.fst) venue with
  | error e => simp [hck] at h
  | ok v1 =>
      simp only [hck] at h
      have hv1 : dictGet v1 "load_datetime" = none :=
        copyAddressKeys_preserves (addr.map Prod.fst) venue v1 hck hcont hnone
      cases hlat : pyGet v1 "latitude" with
      | error e => simp [hlat] at h
      | ok lat =>
          simp only [hlat] at h
          cases hlon : pyGet (dictSet v1 "latitude" (PyVal.vFloatOf lat))
              "longitude" with
          | error e => simp [hlon] at h
          | ok lon =>
              simp only [hlon] at h
              injection h with hrec
              rw [← hrec]
              rw [dictGet_dictSet_ne _ _ _ _ (by decide)]
              rw [dictGet_dictSet_ne _ _ _ _ (by decide)]
              exact hv1

/-- C3 counterexample: a concrete venue payload is transformed
successfully by load_venue (and hence persisted via Database.load_item),
yet the transformed record carries no load_datetime field, refuting the
claim that every persisted record (Venue included) carries a load
timestamp. -/
theorem c3_counterexample_venue_unstamped :
    load_venue_transform c3Venue = Except.ok c3VenueOut
    ∧ dictGet c3VenueOut "load_datetime" = none :=
  ⟨rfl, rfl⟩

/-- C3 amended: every Event, Attendee, and Order record persisted by the
loader carries a load_datetime field set at the moment of transformation,
strictly greater than a clock reading taken before the transformation
call began; Venue records are the exception: load_venue stamps no load
timestamp, so a venue whose payload has no load_datetime field (top-level
or inside its address) is persisted without one. -/
theorem c3_load_timestamp_stamping (c0 : Clock)
    (event attendee order venue : Record) :
    (∀ rec c2, load_event_transform (utcnow c0).2 event =
        Except.ok (rec, c2) →
      ∃ t, dictGet rec "load_datetime" = some (PyVal.vTime t)
        ∧ (utcnow c0).1 < t)
    ∧ (∀ rec c2, load_attendee_transform (utcnow c0).2 attendee =
        Except.ok (rec, c2) →
      ∃ t, dictGet rec "load_datetime" = some (PyVal.vTime t)
        ∧ (utcnow c0).1 < t)
    ∧ (∀ rec c2, load_order_transform (utcnow c0).2 order =
        Except.ok (rec, c2) →
      ∃ t, dictGet rec "load_datetime" = some (PyVal.vTime t)
        ∧ (utcnow c0).1 < t)
    ∧ (∀ addr rec, dictGet venue "address" = some (PyVal.vDict addr) →
        "load_datetime" ∉ addr.map Prod.fst →
        dictGet venue "load_datetime" = none →
        load_venue_transform venue = Except.ok rec →
        dictGet rec "load_datetime" = none) := by
  refine ⟨?_, ?_, ?_, ?_⟩
  · intro rec c2 h
    exact ⟨(utcnow c0).2.current + 1,
      load_event_transform_stamp _ _ _ _ h, Nat.lt_succ_self _⟩
  · intro rec c2 h
    exact ⟨(utcnow c0).2.current + 1,
      load_attendee_transform_stamp _ _ _ _ h, Nat.lt_succ_self _⟩
  · intro rec c2 h
    exact ⟨(utcnow c0).2.current + 1,
      load_order_transform_stamp _ _ _ _ h, Nat.lt_succ_self _⟩
  · intro addr rec haddr hcont hnone h
    exact load_venue_transform_no_stamp venue rec addr haddr hcont hnone h

/-- Witness for the amended C3 at concrete payloads and the clock reading
1 taken before the transformation calls: event, attendee, and order
records are stamped with time 2 while the venue record stays unstamped. -/
theorem c3_witness :
    (∃ t, dictGet c3EventOut "load_datetime" = some (PyVal.vTime t)
      ∧ (utcnow ⟨0⟩).1 < t)
    ∧ (∃ t, dictGet c3AttendeeOut "load_datetime" = some (PyVal.vTime t)
      ∧ (utcnow ⟨0⟩).1 < t)
    ∧ (∃ t, dictGet c3OrderOut "load_datetime" = some (PyVal.vTime t)
      ∧ (utcnow ⟨0⟩).1 < t)
    ∧ dictGet c3VenueOut "load_datetime" = none := by
  have h := c3_load_timestamp_stamping ⟨0⟩ c3Event c3Attendee c3Order c3Venue
  exact ⟨h.1 c3EventOut ⟨2⟩ rfl, h.2.1 c3AttendeeOut ⟨2⟩ rfl,
    h.2.2.1 c3OrderOut ⟨2⟩ rfl,
    h.2.2.2 [("city", PyVal.vStr "Atlanta")] c3VenueOut rfl (by decide)
      rfl rfl⟩
